import Mathlib

/-!
# Verification of the try-cb-golang HTTP handler layer

A shallow embedding of the server package of the try-cb-golang
repository: the auth-header decoding (`decodeAuthUserOrFail`), the JWT
issuance (`createJwtToken`), the request handlers of `handler.go`
(`UserLogin`, `UserSignup`, `UserFlights`, `UserBookFlight`,
`FlightSearch`), the route table of `setupRoutes`, and the date parsing
performed by `FlightSearch` (Go `time.Parse` with layout `01/02/2006`).

Stateful Go code is embedded as pure functions over explicit request
data; the `Repository` interface becomes a record of functions; Go
`error` values from the data layer become an explicit error structure
recording what `errors.Is` would report; Go runtime panics (index out
of range, failed type assertions) become an explicit `panicked`
outcome.
-/

namespace TryCb

/-! ## Error message constants (handler.go lines 13–19) -/

def errUserExists : String := "user already exists"
def errUserNotFound : String := "user does not exist"
def errBadPassword : String := "password does not match"
def errBadAuthHeader : String := "bad authentication header format"
def errBadAuth : String := "invalid auth token"

/-- The fixed symmetric signing secret (handler.go line 20). -/
def jwtSecret : String := "UNSECURE_SECRET_TOKEN"

/-! ## strings.SplitN(s, " ", 2)

Go's `strings.SplitN(s, " ", 2)` returns `[s]` when `s` contains no
space, and `[before, after]` split at the first space otherwise.  We
embed it as a scan for the first space over the character list. -/

def splitFirstSpace : List Char → List Char × Option (List Char)
  | [] => ([], none)
  | c :: cs =>
    if c = ' ' then ([], some cs)
    else
      let r := splitFirstSpace cs
      (c :: r.1, r.2)

/-- `splitN2 s` is `strings.SplitN(s, " ", 2)`, given as the part before
the first space together with the part after it (`none` when `s` has no
space, i.e. when Go would return a one-element slice). -/
def splitN2 (s : String) : String × Option String :=
  let r := splitFirstSpace s.data
  (String.mk r.1, r.2.map String.mk)

/-! ## JWT model

The jwt-go library (dgrijalva/jwt-go) is a third-party dependency and
its code is not part of this repository.  We model it symbolically. -/

/-- Modelled from the spec: the signing algorithm of a jwt-go token
("Token issuance/verification: signs/validates a simple claim
(username) using a fixed symmetric secret").  `hs256`/`hs384`/`hs512`
are the members of jwt-go's `SigningMethodHMAC` family; `other` covers
every non-HMAC method. -/
inductive JwtAlg
  | hs256
  | hs384
  | hs512
  | other (name : String)
  deriving DecidableEq, Repr

/-- Whether the method is an instance of `*jwt.SigningMethodHMAC`. -/
def JwtAlg.isHMAC : JwtAlg → Bool
  | .hs256 => true
  | .hs384 => true
  | .hs512 => true
  | .other _ => false

def JwtAlg.name : JwtAlg → String
  | .hs256 => "HS256"
  | .hs384 => "HS384"
  | .hs512 => "HS512"
  | .other n => n

/-- A claim value of jwt-go's `MapClaims` (`map[string]interface{}`):
either a JSON string or some non-string JSON value.  The handler's
type assertion `.(string)` panics on anything but a string. -/
inductive CVal
  | str (s : String)
  | nonStr
  deriving DecidableEq, Repr

/-- Modelled from the spec: a signed token of the jwt-go library, which
is missing from src/ ("signs/validates a simple claim (username) using
a fixed symmetric secret").  `alg` is the signing method named in the
token header, `claims` the claim set, and `key` the symbolic signature:
the key material the token's signature verifies under.  Registered
time-based claims (exp/nbf) are not modelled; the server never issues
them. -/
structure JwtTok where
  alg : JwtAlg
  claims : List (String × CVal)
  key : String
  deriving DecidableEq, Repr

/-- `createJwtToken` (part_002 lines 80–84): sign `MapClaims{"user": user}`
with `jwt.SigningMethodHS256` under `jwtSecret`. -/
def createJwtToken (user : String) : JwtTok :=
  { alg := .hs256, claims := [("user", .str user)], key := jwtSecret }

/-- `jwt.Parse` with the keyfunc of `decodeAuthUserOrFail` (part_002
lines 99–106): the keyfunc rejects any method that is not
`*jwt.SigningMethodHMAC` and otherwise supplies `jwtSecret`; parsing
then succeeds exactly when the token's signature verifies under that
key. -/
def verifyTokenWithKeyfunc (t : JwtTok) : Except String JwtTok :=
  if t.alg.isHMAC then
    if t.key = jwtSecret then .ok t
    else .error "signature is invalid"
  else .error ("Unexpected signing method: " ++ t.alg.name)

/-! ## decodeAuthUserOrFail (part_002 lines 86–121)

The deserialization of a compact JWT string into a token structure is
library code outside this repository; the embedding is parametric in a
deserializer `parseTok : String → Except String JwtTok`.  Everything
the handler itself contributes — header selection, the `SplitN` on the
header value, the keyfunc, the claim extraction — is embedded
concretely. -/

/-- Outcome of the header-selection phase (part_002 lines 87–98). -/
inductive ExtractResult
  | badHeader
  | panicked
  | token (s : String)
  deriving DecidableEq, Repr

def ExtractResult.ofParts : String × Option String → ExtractResult
  | (_, some t) => .token t
  | (_, none) => .panicked

/-- Lines 87–98: split the `Authorization` value at the first space; if
its first word is not `Bearer`, fall back to the `Authentication`
header; if that also fails, report a bad header.  The subsequent
`authHeaderParts[1]` is an out-of-range access — a Go panic — whenever
the winning header value contains no space. -/
def extractAuthToken (authorization authentication : String) : ExtractResult :=
  let p := splitN2 authorization
  if p.1 = "Bearer" then .ofParts p
  else
    let q := splitN2 authentication
    if q.1 = "Bearer" then .ofParts q
    else .badHeader

/-- Outcome of `decodeAuthUserOrFail`: `failed code msg` when the
function wrote `{"failure": msg}` with HTTP status `code` and returned
`false`; `panicked` when the Go code panics; `ok name` when it set
`user.Name = name` and returned `true`. -/
inductive AuthOutcome
  | failed (code : Nat) (msg : String)
  | panicked
  | ok (name : String)
  deriving DecidableEq, Repr

/-- `decodeAuthUserOrFail` (part_002 lines 86–121).  After header
selection the token string is deserialized (`parseTok`, library code)
and verified with the handler's keyfunc; the `user` claim is read by
`token.Claims.(jwt.MapClaims)["user"].(string)`, which panics unless
the claim is present and a string; an empty claim is rejected with
`ErrBadAuth`. -/
def decodeAuthUserOrFail (parseTok : String → Except String JwtTok)
    (authorization authentication : String) : AuthOutcome :=
  match extractAuthToken authorization authentication with
  | .badHeader => .failed 400 errBadAuthHeader
  | .panicked => .panicked
  | .token s =>
    match (parseTok s).bind verifyTokenWithKeyfunc with
    | .error _ => .failed 400 errBadAuthHeader
    | .ok t =>
      match t.claims.lookup "user" with
      | some (.str u) =>
        if u = "" then .failed 400 errBadAuth else .ok u
      | some .nonStr => .panicked
      | none => .panicked

/-! ## Data model (part_001) -/

/-- `jsonFlight` (part_001 lines 12–21). -/
structure Flight where
  name : String
  flight : String
  equipment : String
  utc : String
  sourceairport : String
  destinationairport : String
  price : Float
  flighttime : Int

/-- `jsonBookedFlight` (part_001 lines 32–40). -/
structure BookedFlight where
  name : String
  flight : String
  price : Float
  date : String
  sourceairport : String
  destinationairport : String
  bookedon : String

/-- `jsonFlightSearchResp` (handler.go lines 42–45). -/
structure FlightSearchResp where
  data : List Flight
  context : List String

/-- `jsonUserFlightsResp` (handler.go lines 178–181). -/
structure UserFlightsResp where
  data : List BookedFlight
  context : List String

/-- `jsonUserBookFlightResp` (handler.go lines 205–210). -/
structure BookFlightResp where
  added : List BookedFlight
  context : List String

/-! ## The data layer

The `Repository` interface (part_003 lines 14–23) is embedded as a
record of functions.  A Go `error` returned by the data layer is
embedded as `DbErr`, which records the message together with what
`errors.Is` reports against the two gocb sentinel errors the handlers
test for. -/

/-- A non-nil Go `error` from a repository method.  `isDocumentNotFound`
is `errors.Is(err, gocb.ErrDocumentNotFound)`, `isDocumentExists` is
`errors.Is(err, gocb.ErrDocumentExists)`, and `message` is
`err.Error()`. -/
structure DbErr where
  isDocumentNotFound : Bool
  isDocumentExists : Bool
  message : String

/-- The `Repository` interface, restricted to the methods the embedded
handlers call.  `getFlightPaths` takes the day of week as a `Nat`
because the handler only ever passes `int(time.Weekday)`, a value in
`0..6`. -/
structure Repository where
  getUserPassword : String → Except DbErr String
  createUser : String → String → Except DbErr Unit
  getUserFlights : String → Except DbErr UserFlightsResp
  updateUserFlights : String → List BookedFlight → Except DbErr BookFlightResp
  getFlightPaths : String → String → Nat → Except DbErr FlightSearchResp

/-- A repository method invocation, recorded so that theorems can speak
about which calls a handler makes and with which arguments. -/
inductive RepoCall
  | getUserFlights (username : String)
  | updateUserFlights (username : String) (flights : List BookedFlight)
  | getFlightPaths (fromAirport toAirport : String) (dayOfWeek : Nat)

/-- The username argument of a user-data repository call. -/
def RepoCall.username : RepoCall → Option String
  | .getUserFlights u => some u
  | .updateUserFlights u _ => some u
  | .getFlightPaths _ _ _ => none

/-! ## Handler outcomes

`writeJsonFailure w code err` (part_002 lines 48–62) writes the
`{"failure": err.Error()}` body with the given status; a handler that
reaches `encodeRespOrFail` without failing writes the JSON body and the
host HTTP stack defaults the status to 200. -/

inductive HOutcome (β : Type)
  | failure (code : Nat) (msg : String)
  | success (body : β)
  | panicked

/-- Whether the outcome is a `{"failure": msg}` response with status
`code`. -/
def HOutcome.isFailureWith {β : Type} (o : HOutcome β) (code : Nat) : Prop :=
  ∃ msg, o = .failure code msg

/-! ## Handlers (handler.go) -/

/-- The decoded body of `POST /api/user/login` and
`POST /api/user/signup` (handler.go lines 89–92 and 136–139). -/
structure UserCredsReq where
  user : String
  password : String

/-- `UserLogin` (handler.go lines 101–133).  `body` is the result of
`json.Decode` on the request body; the success body is the signed
token placed into `respData.Data.Token`. -/
def userLogin (repo : Repository) (body : Except String UserCredsReq) :
    HOutcome JwtTok :=
  match body with
  | .error e => .failure 500 e
  | .ok reqData =>
    match repo.getUserPassword reqData.user with
    | .error err =>
      if err.isDocumentNotFound then .failure 401 errUserNotFound
      else .failure 500 err.message
    | .ok password =>
      if password ≠ reqData.password then .failure 401 errBadPassword
      else .success (createJwtToken reqData.user)

/-- `UserSignup` (handler.go lines 148–175). -/
def userSignup (repo : Repository) (body : Except String UserCredsReq) :
    HOutcome JwtTok :=
  match body with
  | .error e => .failure 500 e
  | .ok reqData =>
    match repo.createUser reqData.user reqData.password with
    | .error err =>
      if err.isDocumentExists then .failure 409 errUserExists
      else .failure 500 err.message
    | .ok _ => .success (createJwtToken reqData.user)

/-- A request to `GET /api/user/{username}/flights`.  `pathUsername` is
the `{username}` path segment extracted by the router; the Go handler
receives it through `mux.Vars` but never reads it. -/
structure FlightsRequest where
  authorization : String
  authentication : String
  pathUsername : String

/-- `UserFlights` (handler.go lines 183–198), returning the outcome
together with the repository calls made. -/
def userFlights (repo : Repository) (parseTok : String → Except String JwtTok)
    (req : FlightsRequest) : HOutcome UserFlightsResp × List RepoCall :=
  match decodeAuthUserOrFail parseTok req.authorization req.authentication with
  | .failed code msg => (.failure code msg, [])
  | .panicked => (.panicked, [])
  | .ok name =>
    match repo.getUserFlights name with
    | .error err => (.failure 500 err.message, [.getUserFlights name])
    | .ok respData => (.success respData, [.getUserFlights name])

/-- A request to `POST /api/user/{username}/flights`.  `body` is the
result of `json.Decode` into `jsonUserBookFlightReq`, yielding its
`Flights` field. -/
structure BookFlightRequest where
  authorization : String
  authentication : String
  pathUsername : String
  body : Except String (List BookedFlight)

/-- `UserBookFlight` (handler.go lines 212–232): authentication first,
then body decoding, then a single `UpdateUserFlights` call whose error
— of any kind — is written as a 500. -/
def userBookFlight (repo : Repository) (parseTok : String → Except String JwtTok)
    (req : BookFlightRequest) : HOutcome BookFlightResp × List RepoCall :=
  match decodeAuthUserOrFail parseTok req.authorization req.authentication with
  | .failed code msg => (.failure code msg, [])
  | .panicked => (.panicked, [])
  | .ok name =>
    match req.body with
    | .error e => (.failure 500 e, [])
    | .ok flights =>
      match repo.updateUserFlights name flights with
      | .error err => (.failure 500 err.message, [.updateUserFlights name flights])
      | .ok respData => (.success respData, [.updateUserFlights name flights])

/-! ## Go time.Parse with layout "01/02/2006" (handler.go line 50)

The Go standard library is not part of this repository.  Modelled from
the spec: the `leave` query parameter of
`GET /api/flightPaths/{from}/{to}?leave=` is "parsed as a date in
mm/dd/YYYY format" — faithful to Go's `time.Parse` with that layout: a
zero-padded two-digit month, `/`, a zero-padded two-digit day, `/`, a
four-digit year, with nothing following, the month in `1..12` and the
day within the parsed month. -/

structure GoDate where
  year : Nat
  month : Nat
  day : Nat
  deriving DecidableEq, Repr

def isLeapYear (y : Nat) : Bool :=
  y % 4 = 0 && (y % 100 ≠ 0 || y % 400 = 0)

/-- Days in a month of the proleptic Gregorian calendar (months
`1..12`). -/
def daysIn (month year : Nat) : Nat :=
  if month = 2 then (if isLeapYear year then 29 else 28)
  else if month = 4 ∨ month = 6 ∨ month = 9 ∨ month = 11 then 30
  else 31

def digitVal (c : Char) : Option Nat :=
  if c.isDigit then some (c.toNat - 48) else none

/-- A fixed-width two-digit number: Go's `getnum(value, true)`. -/
def getnum2 : List Char → Option (Nat × List Char)
  | c1 :: c2 :: rest =>
    match digitVal c1, digitVal c2 with
    | some d1, some d2 => some (d1 * 10 + d2, rest)
    | _, _ => none
  | _ => none

/-- A four-digit year: Go's handling of the `2006` layout element. -/
def getnum4 : List Char → Option (Nat × List Char)
  | c1 :: c2 :: c3 :: c4 :: rest =>
    match digitVal c1, digitVal c2, digitVal c3, digitVal c4 with
    | some d1, some d2, some d3, some d4 =>
      some (((d1 * 10 + d2) * 10 + d3) * 10 + d4, rest)
    | _, _, _, _ => none
  | _ => none

def parseErrMsg (value : String) (rest : List Char) (elem : String) : String :=
  "parsing time \"" ++ value ++ "\" as \"01/02/2006\": cannot parse \"" ++
    String.mk rest ++ "\" as \"" ++ elem ++ "\""

def rangeErrMsg (value : String) (what : String) : String :=
  "parsing time \"" ++ value ++ "\": " ++ what ++ " out of range"

/-- Go `time.Parse("01/02/2006", value)`, reduced to the date it yields
or the parse error's message. -/
def goParseMMDDYYYY (value : String) : Except String GoDate :=
  match getnum2 value.data with
  | none => .error (parseErrMsg value value.data "01")
  | some (month, r1) =>
    match r1 with
    | '/' :: r2 =>
      match getnum2 r2 with
      | none => .error (parseErrMsg value r2 "02")
      | some (day, r3) =>
        match r3 with
        | '/' :: r4 =>
          match getnum4 r4 with
          | none => .error (parseErrMsg value r4 "2006")
          | some (year, r5) =>
            if r5 ≠ [] then
              .error ("parsing time \"" ++ value ++ "\": extra text: " ++
                String.mk r5)
            else if month < 1 ∨ 12 < month then
              .error (rangeErrMsg value "month")
            else if day < 1 ∨ daysIn month year < day then
              .error (rangeErrMsg value "day")
            else .ok ⟨year, month, day⟩
        | _ => .error (parseErrMsg value r3 "/")
    | _ => .error (parseErrMsg value r1 "/")

/-- The number of days from 0000-03-01 (shifted by 400 years, a whole
number of weeks, to keep the arithmetic in `Nat`) to the given date of
the proleptic Gregorian calendar. -/
def daysFromCivil (y m d : Nat) : Nat :=
  let yy := y + 400
  let yAdj := if m ≤ 2 then yy - 1 else yy
  let era := yAdj / 400
  let yoe := yAdj % 400
  let mp := (m + 9) % 12
  let doy := (153 * mp + 2) / 5 + d - 1
  let doe := yoe * 365 + yoe / 4 - yoe / 100 + doy
  era * 146097 + doe

/-- `int(t.Weekday())` of the parsed date: `0` = Sunday … `6` =
Saturday, as in Go's `time.Weekday`. -/
def goWeekday (d : GoDate) : Nat :=
  (daysFromCivil d.year d.month d.day + 3) % 7

/-- `FlightSearch` (handler.go lines 47–65): parse the `leave` form
value, then query the repository with the `from` and `to` path segments
and the parsed date's day of week. -/
def flightSearch (repo : Repository) (fromAirport toAirport leave : String) :
    HOutcome FlightSearchResp × List RepoCall :=
  match goParseMMDDYYYY leave with
  | .error e => (.failure 500 e, [])
  | .ok d =>
    let dayOfWeek := goWeekday d
    match repo.getFlightPaths fromAirport toAirport dayOfWeek with
    | .error err =>
      (.failure 500 err.message, [.getFlightPaths fromAirport toAirport dayOfWeek])
    | .ok respData =>
      (.success respData, [.getFlightPaths fromAirport toAirport dayOfWeek])

/-! ## The route table (part_002 lines 30–46) -/

inductive HandlerId
  | airportSearch
  | flightSearch
  | userLogin
  | userSignup
  | userFlights
  | userBookFlight
  | hotelSearch
  deriving DecidableEq, Repr

structure Route where
  method : String
  pattern : String
  handler : HandlerId
  deriving DecidableEq, Repr

/-- `setupRoutes` (part_002 lines 30–46): the eight `Path(...)` route
registrations, in registration order.  The trailing
`PathPrefix("/")` static file server is not an API route and is not
listed. -/
def setupRoutes : List Route :=
  [ ⟨"GET", "/api/airports", .airportSearch⟩,
    ⟨"GET", "/api/flightPaths/{from}/{to}", .flightSearch⟩,
    ⟨"POST", "/api/user/login", .userLogin⟩,
    ⟨"POST", "/api/user/signup", .userSignup⟩,
    ⟨"GET", "/api/user/{username}/flights", .userFlights⟩,
    ⟨"POST", "/api/user/{username}/flights", .userBookFlight⟩,
    ⟨"GET", "/api/hotel/{description}/", .hotelSearch⟩,
    ⟨"GET", "/api/hotel/{description}/{location}/", .hotelSearch⟩ ]

/-! ## Concrete fixtures used by witnesses and counterexamples -/

/-- A repository whose every method succeeds; `getUserPassword` returns
`"pw0"`. -/
def stubRepo : Repository where
  getUserPassword := fun _ => .ok "pw0"
  createUser := fun _ _ => .ok ()
  getUserFlights := fun _ => .ok ⟨[], []⟩
  updateUserFlights := fun _ _ => .ok ⟨[], []⟩
  getFlightPaths := fun _ _ _ => .ok ⟨[], []⟩

/-- An error for which `errors.Is(err, gocb.ErrDocumentNotFound)`
holds. -/
def notFoundErr : DbErr := ⟨true, false, "document not found"⟩

/-- An error for which `errors.Is(err, gocb.ErrDocumentExists)`
holds. -/
def docExistsErr : DbErr := ⟨false, true, "document exists"⟩

/-- A generic data-access error matching neither sentinel. -/
def otherErr : DbErr := ⟨false, false, "boom"⟩

def repoUserNotFound : Repository :=
  { stubRepo with getUserPassword := fun _ => .error notFoundErr }

def repoUserErr : Repository :=
  { stubRepo with getUserPassword := fun _ => .error otherErr }

def repoCreateExists : Repository :=
  { stubRepo with createUser := fun _ _ => .error docExistsErr }

def repoCreateErr : Repository :=
  { stubRepo with createUser := fun _ _ => .error otherErr }

def repoBookNotFound : Repository :=
  { stubRepo with updateUserFlights := fun _ _ => .error notFoundErr }

/-- A concrete JWT deserializer: the string `"tok0"` is the compact
serialization of the token issued for `"alice"`; everything else is
malformed. -/
def stubParse : String → Except String JwtTok := fun s =>
  if s = "tok0" then .ok (createJwtToken "alice")
  else .error "token contains an invalid number of segments"

/-! # Theorems -/

/-- C1: for every `POST /api/user/login` request whose body decodes to
a user and password, a not-found report from the stored-password lookup
yields 401 with `user does not exist`; a password mismatch yields 401
with `password does not match`; any other lookup error yields 500 with
the error's message; otherwise the response is 200 carrying a token
signed for that user. -/
theorem userLogin_mapping (repo : Repository) (u p : String) :
    (∀ err : DbErr, repo.getUserPassword u = .error err →
      err.isDocumentNotFound = true →
      userLogin repo (.ok ⟨u, p⟩) = .failure 401 errUserNotFound) ∧
    (∀ err : DbErr, repo.getUserPassword u = .error err →
      err.isDocumentNotFound = false →
      userLogin repo (.ok ⟨u, p⟩) = .failure 500 err.message) ∧
    (∀ pw : String, repo.getUserPassword u = .ok pw → pw ≠ p →
      userLogin repo (.ok ⟨u, p⟩) = .failure 401 errBadPassword) ∧
    (∀ pw : String, repo.getUserPassword u = .ok pw → pw = p →
      userLogin repo (.ok ⟨u, p⟩) = .success (createJwtToken u)) := by
  refine ⟨?_, ?_, ?_, ?_⟩ <;> intro x h1 h2 <;>
    simp [userLogin, h1, h2]

/-- C1, witness: each of the four branches at a concrete repository. -/
theorem userLogin_mapping_witness :
    userLogin repoUserNotFound (.ok ⟨"alice", "pw"⟩) = .failure 401 errUserNotFound ∧
    userLogin repoUserErr (.ok ⟨"alice", "pw"⟩) = .failure 500 "boom" ∧
    userLogin stubRepo (.ok ⟨"alice", "bad"⟩) = .failure 401 errBadPassword ∧
    userLogin stubRepo (.ok ⟨"alice", "pw0"⟩) = .success (createJwtToken "alice") :=
  ⟨(userLogin_mapping repoUserNotFound "alice" "pw").1 notFoundErr rfl rfl,
   (userLogin_mapping repoUserErr "alice" "pw").2.1 otherErr rfl rfl,
   (userLogin_mapping stubRepo "alice" "bad").2.2.1 "pw0" rfl (by decide),
   (userLogin_mapping stubRepo "alice" "pw0").2.2.2 "pw0" rfl rfl⟩

/-- C5: for every `POST /api/user/signup` request: a body that fails to
decode yields 500; a user-creation failure reporting an existing
document yields 409 with `user already exists`; any other creation
error yields 500 with the error's message; success yields 200 carrying
a token signed for the new user. -/
theorem userSignup_mapping (repo : Repository) (u p : String) :
    (∀ e : String, userSignup repo (.error e) = .failure 500 e) ∧
    (∀ err : DbErr, repo.createUser u p = .error err →
      err.isDocumentExists = true →
      userSignup repo (.ok ⟨u, p⟩) = .failure 409 errUserExists) ∧
    (∀ err : DbErr, repo.createUser u p = .error err →
      err.isDocumentExists = false →
      userSignup repo (.ok ⟨u, p⟩) = .failure 500 err.message) ∧
    (repo.createUser u p = .ok () →
      userSignup repo (.ok ⟨u, p⟩) = .success (createJwtToken u)) := by
  refine ⟨fun e => rfl, ?_, ?_, ?_⟩
  · intro err h1 h2
    simp [userSignup, h1, h2]
  · intro err h1 h2
    simp [userSignup, h1, h2]
  · intro h1
    simp [userSignup, h1]

/-- C5, witness: each branch at a concrete repository. -/
theorem userSignup_mapping_witness :
    userSignup stubRepo (.error "invalid character") = .failure 500 "invalid character" ∧
    userSignup repoCreateExists (.ok ⟨"alice", "pw"⟩) = .failure 409 errUserExists ∧
    userSignup repoCreateErr (.ok ⟨"alice", "pw"⟩) = .failure 500 "boom" ∧
    userSignup stubRepo (.ok ⟨"alice", "pw"⟩) = .success (createJwtToken "alice") :=
  ⟨(userSignup_mapping stubRepo "x" "y").1 "invalid character",
   (userSignup_mapping repoCreateExists "alice" "pw").2.1 docExistsErr rfl rfl,
   (userSignup_mapping repoCreateErr "alice" "pw").2.2.1 otherErr rfl rfl,
   (userSignup_mapping stubRepo "alice" "pw").2.2.2 rfl⟩

/-- An authenticated, well-formed booking request carrying the token
for `"alice"` and an empty flight list. -/
def bookReq0 : BookFlightRequest :=
  ⟨"Bearer tok0", "", "alice", .ok []⟩

/-- C2, counterexample: an authenticated, decodable
`POST /api/user/{username}/flights` request for which the data store
reports the user document as not found is answered with 500, not with
401 or 409. -/
theorem userBookFlight_notFound_counterexample :
    decodeAuthUserOrFail stubParse bookReq0.authorization bookReq0.authentication
      = .ok "alice" ∧
    bookReq0.body = .ok [] ∧
    repoBookNotFound.updateUserFlights "alice" [] = .error notFoundErr ∧
    (userBookFlight repoBookNotFound stubParse bookReq0).1
      = .failure 500 "document not found" ∧
    ¬ (userBookFlight repoBookNotFound stubParse bookReq0).1.isFailureWith 401 ∧
    ¬ (userBookFlight repoBookNotFound stubParse bookReq0).1.isFailureWith 409 := by
  refine ⟨rfl, rfl, rfl, rfl, ?_, ?_⟩ <;>
    · rintro ⟨msg, h⟩
      rw [show (userBookFlight repoBookNotFound stubParse bookReq0).1
        = .failure 500 "document not found" from rfl] at h
      simp at h

/-- C2, amended: on an authenticated `POST /api/user/{username}/flights`
request whose body decodes, any error reported by the data store —
the not-found report included — is answered with status 500 carrying
the error's message; `UserBookFlight` gives not-found no special
mapping. -/
theorem userBookFlight_error_is_500 (repo : Repository)
    (parseTok : String → Except String JwtTok) (req : BookFlightRequest)
    (name : String) (flights : List BookedFlight) (err : DbErr)
    (hauth : decodeAuthUserOrFail parseTok req.authorization req.authentication
      = .ok name)
    (hbody : req.body = .ok flights)
    (herr : repo.updateUserFlights name flights = .error err) :
    (userBookFlight repo parseTok req).1 = .failure 500 err.message := by
  simp [userBookFlight, hauth, hbody, herr]

/-- C2, witness for the amended claim. -/
theorem userBookFlight_error_is_500_witness :
    (userBookFlight repoBookNotFound stubParse bookReq0).1
      = .failure 500 "document not found" :=
  userBookFlight_error_is_500 repoBookNotFound stubParse bookReq0
    "alice" [] notFoundErr rfl rfl rfl

/-- C3, counterexample: the router registers eight route patterns, not
seven, and the pattern `GET /api/hotel/{description}/{location}`
without a trailing slash is not among them. -/
theorem setupRoutes_counterexample :
    setupRoutes.length ≠ 7 ∧
    ∀ r ∈ setupRoutes, r.pattern ≠ "/api/hotel/{description}/{location}" := by
  decide

/-- C3, amended: the router maps exactly eight fixed routes: the six
non-hotel routes as listed in the spec, plus the hotel search at
`GET /api/hotel/{description}/` and
`GET /api/hotel/{description}/{location}/`, both written with a
trailing slash; no other API route patterns exist, and the hotel
handler is reachable only through those two trailing-slash patterns. -/
theorem setupRoutes_amended :
    setupRoutes.length = 8 ∧
    Route.mk "GET" "/api/airports" .airportSearch ∈ setupRoutes ∧
    Route.mk "GET" "/api/flightPaths/{from}/{to}" .flightSearch ∈ setupRoutes ∧
    Route.mk "POST" "/api/user/login" .userLogin ∈ setupRoutes ∧
    Route.mk "POST" "/api/user/signup" .userSignup ∈ setupRoutes ∧
    Route.mk "GET" "/api/user/{username}/flights" .userFlights ∈ setupRoutes ∧
    Route.mk "POST" "/api/user/{username}/flights" .userBookFlight ∈ setupRoutes ∧
    Route.mk "GET" "/api/hotel/{description}/" .hotelSearch ∈ setupRoutes ∧
    Route.mk "GET" "/api/hotel/{description}/{location}/" .hotelSearch ∈ setupRoutes ∧
    (∀ r ∈ setupRoutes, r.handler = .hotelSearch →
      r.pattern = "/api/hotel/{description}/" ∨
      r.pattern = "/api/hotel/{description}/{location}/") := by
  decide

/-- Splitting `"Bearer " ++ tok` at the first space yields `Bearer`
and the token. -/
theorem splitN2_bearer (tok : String) :
    splitN2 ("Bearer " ++ tok) = ("Bearer", some tok) := rfl

/-- An `Authorization` value of the form `Bearer <token>` wins the
header selection regardless of the `Authentication` header. -/
theorem extractAuthToken_bearer_fst (tok : String) (x : String) :
    extractAuthToken ("Bearer " ++ tok) x = .token tok := by
  simp [extractAuthToken, splitN2_bearer, ExtractResult.ofParts]

/-- Every failure `decodeAuthUserOrFail` reports carries status 400 and
one of the two auth error messages. -/
theorem decodeAuth_failed_cases (parseTok : String → Except String JwtTok)
    (a b : String) (c : Nat) (m : String)
    (h : decodeAuthUserOrFail parseTok a b = .failed c m) :
    c = 400 ∧ (m = errBadAuthHeader ∨ m = errBadAuth) := by
  unfold decodeAuthUserOrFail at h
  split at h
  · injection h with h1 h2
    exact ⟨h1.symm, .inl h2.symm⟩
  · exact AuthOutcome.noConfusion h
  · split at h
    · injection h with h1 h2
      exact ⟨h1.symm, .inl h2.symm⟩
    · split at h
      · split at h
        · injection h with h1 h2
          exact ⟨h1.symm, .inr h2.symm⟩
        · exact AuthOutcome.noConfusion h
      · exact AuthOutcome.noConfusion h
      · exact AuthOutcome.noConfusion h

/-- C4, counterexample: the header value `Bearer` with no following
space is not of the form `Bearer <token>`, yet the user-flights handler
answers it with a panic (Go: index out of range), not with a 400
failure response. -/
theorem userFlights_bearer_no_token_counterexample :
    (¬ ∃ tok : String, ("Bearer" : String) = "Bearer " ++ tok) ∧
    (userFlights stubRepo stubParse ⟨"Bearer", "", "alice"⟩).1 = .panicked ∧
    ∀ (code : Nat) (msg : String),
      (userFlights stubRepo stubParse ⟨"Bearer", "", "alice"⟩).1
        ≠ .failure code msg := by
  refine ⟨?_, rfl, ?_⟩
  · rintro ⟨tok, h⟩
    have hl := congrArg String.length h
    rw [String.length_append] at hl
    have h6 : ("Bearer".length : Nat) = 6 := rfl
    have h7 : ("Bearer ".length : Nat) = 7 := rfl
    omega
  · intro code msg h
    rw [show (userFlights stubRepo stubParse ⟨"Bearer", "", "alice"⟩).1
      = (HOutcome.panicked : HOutcome UserFlightsResp) from rfl] at h
    exact HOutcome.noConfusion h

/-- C4, amended: on the user-flights endpoints, whenever bearer-token
authentication fails with a failure response — the selected header's
first space-separated word is not `Bearer`, the token fails validation,
or the token's user claim is empty — that response has status 400 with
message `bad authentication header format` or `invalid auth token`,
and no repository method is invoked; a selected header that is exactly
`Bearer` with no following space instead panics. -/
theorem userFlights_auth_failure_400 (repo : Repository)
    (parseTok : String → Except String JwtTok)
    (reqG : FlightsRequest) (reqP : BookFlightRequest) (code : Nat) (msg : String) :
    (decodeAuthUserOrFail parseTok reqG.authorization reqG.authentication
        = .failed code msg →
      code = 400 ∧ (msg = errBadAuthHeader ∨ msg = errBadAuth) ∧
      userFlights repo parseTok reqG = (.failure code msg, [])) ∧
    (decodeAuthUserOrFail parseTok reqP.authorization reqP.authentication
        = .failed code msg →
      code = 400 ∧ (msg = errBadAuthHeader ∨ msg = errBadAuth) ∧
      userBookFlight repo parseTok reqP = (.failure code msg, [])) := by
  constructor <;> intro h <;> obtain ⟨h1, h2⟩ := decodeAuth_failed_cases _ _ _ _ _ h
  · exact ⟨h1, h2, by simp [userFlights, h]⟩
  · exact ⟨h1, h2, by simp [userBookFlight, h]⟩

/-- C4, witness: a malformed header at a concrete request. -/
theorem userFlights_auth_failure_400_witness :
    userFlights stubRepo stubParse ⟨"boom", "zap", "alice"⟩
      = (.failure 400 errBadAuthHeader, []) :=
  ((userFlights_auth_failure_400 stubRepo stubParse ⟨"boom", "zap", "alice"⟩
    ⟨"boom", "zap", "alice", .ok []⟩ 400 errBadAuthHeader).1 rfl).2.2

/-- C6: verifying a token issued for a non-empty username `u` succeeds
and recovers exactly `u`; issuance signs the single claim `user` with
the HS256 HMAC method under the fixed secret, and the keyfunc-based
verification accepts a token only if it carries an HMAC method and its
signature verifies under that same secret. -/
theorem jwt_roundtrip (parseTok : String → Except String JwtTok) (u s : String)
    (hu : u ≠ "") (hs : parseTok s = .ok (createJwtToken u)) :
    decodeAuthUserOrFail parseTok ("Bearer " ++ s) "" = .ok u ∧
    createJwtToken u = ⟨.hs256, [("user", .str u)], jwtSecret⟩ ∧
    (createJwtToken u).alg.isHMAC = true ∧
    (∀ t r : JwtTok, verifyTokenWithKeyfunc t = .ok r →
      t.alg.isHMAC = true ∧ t.key = jwtSecret ∧ r = t) := by
  refine ⟨?_, rfl, rfl, ?_⟩
  · simp [decodeAuthUserOrFail, extractAuthToken_bearer_fst, hs, Except.bind,
      verifyTokenWithKeyfunc, createJwtToken, JwtAlg.isHMAC, List.lookup, hu]
  · intro t r h
    unfold verifyTokenWithKeyfunc at h
    split at h
    · split at h
      · injection h with h1
        exact ⟨by assumption, by assumption, h1.symm⟩
      · exact Except.noConfusion h
    · exact Except.noConfusion h

/-- C6, witness: the round trip at username `alice`. -/
theorem jwt_roundtrip_witness :
    decodeAuthUserOrFail stubParse ("Bearer " ++ "tok0") "" = .ok "alice" :=
  (jwt_roundtrip stubParse "alice" "tok0" (by decide) rfl).1

/-- C9: a header value that is exactly `Bearer`, in either the
`Authorization` or the `Authentication` position, leaves the space
split with a single element, and the decoder's read of the token part
is out of range: the Go code panics. -/
theorem decodeAuth_bearer_no_space_panics :
    splitN2 "Bearer" = ("Bearer", none) ∧
    extractAuthToken "Bearer" "" = .panicked ∧
    decodeAuthUserOrFail stubParse "Bearer" "" = .panicked ∧
    decodeAuthUserOrFail stubParse "boom" "Bearer" = .panicked :=
  ⟨rfl, rfl, rfl, rfl⟩

/-- C10: when the `Authorization` value's first space-separated word is
not `Bearer`, the decoder falls back to the `Authentication` header,
and an `Authentication` value `Bearer <token>` is handled exactly as
the same value in the `Authorization` header would be. -/
theorem decodeAuth_authentication_fallback
    (parseTok : String → Except String JwtTok) (auth authn tok : String)
    (h : (splitN2 auth).1 ≠ "Bearer") :
    extractAuthToken auth ("Bearer " ++ tok) = .token tok ∧
    decodeAuthUserOrFail parseTok auth ("Bearer " ++ tok) =
      decodeAuthUserOrFail parseTok ("Bearer " ++ tok) authn := by
  have e1 : extractAuthToken auth ("Bearer " ++ tok) = .token tok := by
    simp [extractAuthToken, h, splitN2_bearer, ExtractResult.ofParts]
  refine ⟨e1, ?_⟩
  simp only [decodeAuthUserOrFail, e1, extractAuthToken_bearer_fst]

/-- C10, witness: a Basic `Authorization` header with a Bearer
`Authentication` header. -/
theorem decodeAuth_authentication_fallback_witness :
    decodeAuthUserOrFail stubParse "Basic x" ("Bearer " ++ "tok0") =
      decodeAuthUserOrFail stubParse ("Bearer " ++ "tok0") "whatever" :=
  (decodeAuth_authentication_fallback stubParse "Basic x" "whatever" "tok0"
    (by decide)).2

/-- C8: on both user-flights endpoints, two authenticated requests that
differ only in the `{username}` path segment produce identical
responses and repository calls, and every repository call made carries
the username from the token's `user` claim. -/
theorem userFlights_ignores_path_username (repo : Repository)
    (parseTok : String → Except String JwtTok) (auth authn u1 u2 name : String)
    (body : Except String (List BookedFlight))
    (hauth : decodeAuthUserOrFail parseTok auth authn = .ok name) :
    userFlights repo parseTok ⟨auth, authn, u1⟩ =
      userFlights repo parseTok ⟨auth, authn, u2⟩ ∧
    userBookFlight repo parseTok ⟨auth, authn, u1, body⟩ =
      userBookFlight repo parseTok ⟨auth, authn, u2, body⟩ ∧
    (∀ call ∈ (userFlights repo parseTok ⟨auth, authn, u1⟩).2,
      call.username = some name) ∧
    (∀ call ∈ (userBookFlight repo parseTok ⟨auth, authn, u1, body⟩).2,
      call.username = some name) := by
  refine ⟨rfl, rfl, ?_, ?_⟩
  · intro call hc
    rcases hr : repo.getUserFlights name with e | d <;>
      simp [userFlights, hauth, hr] at hc <;> subst hc <;> rfl
  · intro call hc
    rcases body with e | flights
    · simp [userBookFlight, hauth] at hc
    · rcases hr : repo.updateUserFlights name flights with e | d <;>
        simp [userBookFlight, hauth, hr] at hc <;> subst hc <;> rfl

/-- C8, witness: two path usernames, same token, same response. -/
theorem userFlights_ignores_path_username_witness :
    userFlights stubRepo stubParse ⟨"Bearer tok0", "", "mallory"⟩ =
      userFlights stubRepo stubParse ⟨"Bearer tok0", "", "alice"⟩ :=
  (userFlights_ignores_path_username stubRepo stubParse "Bearer tok0" "" "mallory"
    "alice" "alice" (.ok []) rfl).1

/-- C7: `FlightSearch` parses `leave` as a mm/dd/YYYY date — failing
with status 500 carrying the parse error's message — and otherwise
invokes the flight-path query with the `from` and `to` path segments
and the parsed date's day of week, with Sunday as 0 (2006-01-01, a
Sunday, maps to 0 and 2006-01-07, a Saturday, to 6), returning a
successful query result with status 200. -/
theorem flightSearch_spec (repo : Repository) (fromA toA leave : String) :
    (∀ e : String, goParseMMDDYYYY leave = .error e →
      flightSearch repo fromA toA leave = (.failure 500 e, [])) ∧
    (∀ d : GoDate, goParseMMDDYYYY leave = .ok d →
      (flightSearch repo fromA toA leave).2 =
        [.getFlightPaths fromA toA (goWeekday d)] ∧
      (∀ resp, repo.getFlightPaths fromA toA (goWeekday d) = .ok resp →
        flightSearch repo fromA toA leave =
          (.success resp, [.getFlightPaths fromA toA (goWeekday d)]))) ∧
    goWeekday ⟨2006, 1, 1⟩ = 0 ∧ goWeekday ⟨2006, 1, 7⟩ = 6 ∧
    (∀ d : GoDate, goWeekday d < 7) := by
  refine ⟨?_, ?_, rfl, rfl, fun d => Nat.mod_lt _ (by norm_num)⟩
  · intro e he
    simp [flightSearch, he]
  · intro d hd
    constructor
    · rcases hr : repo.getFlightPaths fromA toA (goWeekday d) with err | resp <;>
        simp [flightSearch, hd, hr]
    · intro resp hresp
      simp [flightSearch, hd, hresp]

/-- C7, witness: 12/15/2020 was a Tuesday (day of week 2). -/
theorem flightSearch_spec_witness :
    flightSearch stubRepo "SFO" "LAX" "12/15/2020" =
      (.success ⟨[], []⟩, [.getFlightPaths "SFO" "LAX" 2]) :=
  ((flightSearch_spec stubRepo "SFO" "LAX" "12/15/2020").2.1 ⟨2020, 12, 15⟩ rfl).2
    ⟨[], []⟩ rfl

end TryCb
